import Mathlib

/-!
Verification of the aetherion real-time state-distribution layer.

This file gives a shallow embedding, in Lean 4, of the parts of the
aetherion repository that the specification's claims are about:

* the push-model `EventBus` (`src/aetherion/src/aetherion/events/__init__.py`),
* the pull-model `PubSubTopicBroker` / `TopicReader` (same file),
* the `JWTAuthenticator` and `MockJWTProvider`
  (`src/aetherion/src/aetherion/networking/jwt.py`),
* the client-side `WebSocketReceiver` demultiplexer
  (`src/src/aetherion/networking/receiver.py`),
* the client facade `ServerBeastConnection`
  (`src/aetherion/src/aetherion/networking/connection.py`),
* the server `WebSocketGameServer` / `AuthenticatedWebSocketServer`
  (`src/src/aetherion/networking/websocket_server.py`).

Python dictionaries become association lists or Lean structures, `deque`s
and `queue.Queue`s become `List`s (front of the list = oldest element),
float arithmetic on streaming intervals is embedded into `ℚ` (the claims
under study are about exact interval formulas and control flow, not about
binary rounding), and `try`/`except` control flow becomes pattern matching
on `Except` / explicit outcome types.  Third-party collaborators
(the PyJWT `jwt.decode`, the websocket transport, lz4/msgpack codecs and
the flatbuffers accessors) are modelled at their boundary: decoding
functions are explicit parameters or outcome-carrying data, and transport
sends are recorded in an outbox list.
-/

namespace Aetherion

/-! ## Event envelope

`GameEvent` (`events/__init__.py`): the embedding keeps the event type
(an enum, embedded as `Nat`) and the data payload (embedded as `Nat`);
`source` and `timestamp` play no role in any claim about routing or
dispatch order, and are omitted from the embedded record. -/

structure GameEvent where
  event_type : Nat
  data : Nat
deriving DecidableEq, Repr

/-! ## Local bus (push model): `EventBus`

A Python callback registered on the bus is an arbitrary function; the only
effect a callback can have on the bus itself is to call `emit`, which
appends new events to `_event_queue`.  A callback is therefore embedded as
a function from the received event to the list of events it emits on the
same bus, in the order it emits them.  Exceptions raised by a callback are
caught and logged by `emit_immediate` and have no effect on the queue, so
they need no representation here. -/

def Callback : Type := GameEvent → List GameEvent

/-- State of an `EventBus`: the listener table `_listeners` (a map from
event type to the registration-ordered list of callbacks) and the pending
`_event_queue` (front = oldest). -/
structure BusState where
  listeners : Nat → List Callback
  event_queue : List GameEvent

/-- Embedding of `EventBus.emit_immediate` restricted to its effect on the
bus: running every callback registered for the event's type, in
registration order, and collecting the events those callbacks `emit`
(each `emit` appends to `_event_queue` at call time, so the emissions are
concatenated in callback order). -/
def emit_immediate (ls : Nat → List Callback) (e : GameEvent) : List GameEvent :=
  (ls e.event_type).flatMap (fun cb => cb e)

/-- Embedding of `EventBus.process_events`:
`while self._event_queue: event = self._event_queue.popleft();
self.emit_immediate(event)`.  The Python loop re-tests `_event_queue` after
every dispatch, so events emitted by a callback during the drain are popped
by the same call.  Since callbacks may emit forever, the embedding takes a
fuel bound; it returns the final bus state together with the list of events
dispatched during this single call, in dispatch order. -/
def process_events : Nat → BusState → BusState × List GameEvent
  | 0, st => (st, [])
  | fuel + 1, st =>
    match st.event_queue with
    | [] => (st, [])
    | e :: rest =>
      let emitted := emit_immediate st.listeners e
      let next := process_events fuel { st with event_queue := rest ++ emitted }
      (next.1, e :: next.2)

/-- Embedding of `EventBus.clear`. -/
def bus_clear (st : BusState) : BusState :=
  { st with event_queue := [] }

/-! ## Topic broker and reader (pull model)

`PubSubTopicBroker` keeps a list of registered `TopicReader`s; each reader
owns a topic filter (`None` = all topics) and a buffered queue.  Locks
guard the Python structures; the embedding is the sequential semantics of
each operation. -/

/-- Embedding of a `TopicReader`: its topic filter (`none` embeds Python
`topics=None`, i.e. all topics) and its buffered `_queue`
(front = oldest). -/
structure TopicReader where
  topics : Option (List String)
  buffer : List GameEvent
deriving DecidableEq, Repr

/-- Delivery test used by `PubSubTopicBroker.publish_event`:
`c.topics is None or topic in c.topics`. -/
def topic_matches (c : TopicReader) (topic : String) : Bool :=
  match c.topics with
  | none => true
  | some ts => ts.contains topic

/-- Embedding of `TopicReader.enqueue`: append the event to the consumer's
own queue. -/
def TopicReader.enqueue (c : TopicReader) (e : GameEvent) : TopicReader :=
  { c with buffer := c.buffer ++ [e] }

/-- Embedding of `PubSubTopicBroker.publish_event`: fan the event out to
every registered consumer whose filter is `None` or contains the topic;
each matching consumer enqueues independently. -/
def publish_event (topic : String) (e : GameEvent) (consumers : List TopicReader) :
    List TopicReader :=
  consumers.map (fun c => if topic_matches c topic then c.enqueue e else c)

/-- Embedding of `TopicReader.drain`: return the buffered events in FIFO
order and clear the buffer. -/
def TopicReader.drain (c : TopicReader) : TopicReader × List GameEvent :=
  ({ c with buffer := [] }, c.buffer)

/-! ## Permission model: `JWTAuthenticator` (`networking/jwt.py`) -/

/-- Embedding of `PermissionLevel` (`networking/constants.py`). -/
inductive PermissionLevel where
  | guest
  | user
  | admin
deriving DecidableEq, Repr

/-- The `action_permissions` table of
`JWTAuthenticator.check_action_permission`, verbatim. -/
def action_permissions : List (String × PermissionLevel) :=
  [("ping", .guest),
   ("subscribe_entities", .user),
   ("subscribe_state", .user),
   ("unsubscribe_entities", .user),
   ("walk_left_entity", .user),
   ("walk_up_entity", .user),
   ("walk_right_entity", .user),
   ("walk_down_entity", .user),
   ("jump_entity", .user),
   ("make_entity_eat", .user),
   ("create_player", .user),
   ("action_and_state_request", .user),
   ("ai_metadata", .user),
   ("ai_decisions", .admin)]

/-- The `level_hierarchy` ranking of
`JWTAuthenticator.check_action_permission`.  The Python code reads it with
`.get(level, 0)` and `.get(required, 2)`, but the dictionary is total over
`PermissionLevel`, so those defaults never fire. -/
def level_hierarchy : PermissionLevel → Nat
  | .guest => 0
  | .user => 1
  | .admin => 2

/-- Embedding of `JWTAuthenticator.check_action_permission`: look the
action up in the table, defaulting to `ADMIN`
(`action_permissions.get(action_name, PermissionLevel.ADMIN)`), then
compare ranks. -/
def check_action_permission (action_name : String) (permission_level : PermissionLevel) :
    Bool :=
  let required_level := ((action_permissions.lookup action_name).getD .admin)
  level_hierarchy permission_level ≥ level_hierarchy required_level

/-! ## Token validation: `JWTAuthenticator.validate_token`

A JWT is embedded as its decoded payload plus a flag telling whether its
signature verifies under the authenticator's secret key.  The PyJWT
collaborator `jwt.decode` is modelled at its boundary as signature
verification: it raises `InvalidTokenError` exactly when the signature
does not verify, and otherwise yields the payload; the expiry comparison
that decides the claims under study is the explicit one in
`validate_token` itself. -/

/-- Decoded JWT payload: the claims carried by tokens in this codebase.
Timestamps are embedded as `ℚ` (POSIX seconds). -/
structure TokenPayload where
  user_id : String
  role : String
  exp : Option ℚ
deriving DecidableEq

/-- A wire token: its payload together with whether its signature verifies
under the server's secret key. -/
structure Token where
  payload : TokenPayload
  sig_valid : Bool
deriving DecidableEq

/-- Boundary model of the third-party `jwt.decode`: fails (raises
`jwt.InvalidTokenError`) when the signature does not verify, otherwise
returns the payload. -/
def jwtDecode (tok : Token) : Except String TokenPayload :=
  if tok.sig_valid then .ok tok.payload else .error "Signature verification failed"

/-- Embedding of `JWTAuthenticator.validate_token`: decode (signature
check), then `if "exp" in payload and now > exp: raise
AuthenticationError("Token has expired")`; a decode failure is re-raised
as `AuthenticationError("Invalid token: ...")`.  `Except.error` embeds a
raised `AuthenticationError`; `now` is the value of
`datetime.now(timezone.utc).timestamp()`. -/
def validate_token (now : ℚ) (tok : Token) : Except String TokenPayload :=
  match jwtDecode tok with
  | .error e => .error ("Invalid token: " ++ e)
  | .ok payload =>
    match payload.exp with
    | some exp_timestamp =>
      if now > exp_timestamp then .error "Token has expired" else .ok payload
    | none => .ok payload

/-- Embedding of `JWTAuthenticator.get_user_permission_level`: read the
`role` claim (default `"guest"`), construct `PermissionLevel(role)`, and
fall back to `GUEST` when the string names no level.  The `.lower()`
normalisation is harmless here because every role string produced in this
codebase is already lowercase; the embedding matches on the exact
lowercase names accepted by the enum. -/
def get_user_permission_level (claims : TokenPayload) : PermissionLevel :=
  match claims.role with
  | "guest" => .guest
  | "user" => .user
  | "admin" => .admin
  | _ => .guest

/-- Embedding of `MockJWTProvider.create_mock_token`: the payload carries
the user id, the role, and `exp = now + hours·3600`; the provider signs
with the shared dev secret, so the signature verifies. -/
def create_mock_token (now : ℚ) (user_id : String) (role : String) (expires_in_hours : ℚ) :
    Token :=
  { payload := { user_id := user_id, role := role, exp := some (now + expires_in_hours * 3600) },
    sig_valid := true }

/-- Embedding of `MockJWTProvider.get_user_token` (role `"user"`,
24-hour lifetime), the credential attached by the client facade to every
request it sends. -/
def get_user_token (now : ℚ) : Token :=
  create_mock_token now "test_user" "user" 24

/-! ## Receiver demultiplexer: `WebSocketReceiver` (`networking/receiver.py`)

The receive loop pulls raw frames from the transport and demultiplexes
them onto the three client queues.  A raw frame is embedded as its payload
identity (a `Nat` standing for the received byte string) paired with the
outcome of `msgpack.unpackb` on it: failure, success with a non-dict
value, or success with a dict whose `"type"` entry (and the control fields
read downstream) are retained. -/

/-- Embedding of the msgpack values that can sit under a dict's `"type"`
key, with Python truthiness. -/
inductive MPVal where
  | str (s : String)
  | intV (n : Int)
  | boolV (b : Bool)
  | nilV
deriving DecidableEq, Repr

/-- Python truthiness of an embedded msgpack value (`if obj.get("type")`). -/
def pyTruthy : MPVal → Bool
  | .str s => s ≠ ""
  | .intV n => n ≠ 0
  | .boolV b => b
  | .nilV => false

/-- Embedding of a decoded control-plane dict: the fields of server
replies that the receiver and the client facade read.  `type_field = none`
embeds a dict with no `"type"` key (`obj.get("type")` is `None`). -/
structure MPDict where
  type_field : Option MPVal
  error_type : Option String := none
  message : Option String := none
  world_ready : Bool := false
deriving DecidableEq, Repr

/-- Outcome of `msgpack.unpackb(data, ...)` on a raw frame. -/
inductive UnpackOutcome where
  | unpackFail
  | nonDict
  | dictVal (d : MPDict)
deriving DecidableEq, Repr

/-- A raw inbound frame: the identity of its bytes (what is stored in the
state queue) and what `msgpack.unpackb` yields on it. -/
structure Frame where
  payload : Nat
  decoded : UnpackOutcome
deriving DecidableEq, Repr

/-- Embedding of `WebSocketReceiver._put_latest` on a queue of bounded
capacity (`cap = 0` embeds a `queue.Queue` with `maxsize=0`, i.e.
unbounded): `put_nowait`, and on `Full` evict the oldest entry and retry. -/
def put_latest {α : Type} (cap : Nat) (q : List α) (item : α) : List α :=
  if cap = 0 then q ++ [item]
  else if q.length < cap then q ++ [item]
  else q.drop 1 ++ [item]

/-- Embedding of `WebSocketReceiver._drain_queue`: `get_nowait` until
`Empty`. -/
def drain_queue {α : Type} (_q : List α) : List α := []

/-- The three client-side queues owned by the receiver.  The state queue
holds raw frame payloads, the control and error queues hold decoded
dicts. -/
structure ReceiverQueues where
  state_queue : List Nat
  control_queue : List MPDict
  error_queue : List MPDict
deriving DecidableEq, Repr

/-- Queue capacities (`maxsize`) with which `ServerBeastConnection`
constructs the receiver's queues: state 1, control 32, error 32. -/
structure QueueCaps where
  state_cap : Nat
  control_cap : Nat
  error_cap : Nat

/-- The capacities used by `ServerBeastConnection.__init__`. -/
def clientCaps : QueueCaps := ⟨1, 32, 32⟩

/-- Embedding of one iteration of the `_recv_loop` body of
`WebSocketReceiver.start` on a received frame: speculatively decode as a
control dict; when the value is a dict whose `"type"` is truthy, route the
dict to the error queue (`type == "error"`) or the control queue
(any other truthy type); otherwise — decode failure, non-dict value, or a
dict with absent/falsy `"type"` — treat the frame as an opaque state
buffer: fully drain the state queue, then put the payload. -/
def recv_step (caps : QueueCaps) (qs : ReceiverQueues) (f : Frame) : ReceiverQueues :=
  let state_route : ReceiverQueues :=
    { qs with state_queue := put_latest caps.state_cap (drain_queue qs.state_queue) f.payload }
  match f.decoded with
  | .dictVal d =>
    match d.type_field with
    | some v =>
      if pyTruthy v then
        if v = .str "error" then
          { qs with error_queue := put_latest caps.error_cap qs.error_queue d }
        else
          { qs with control_queue := put_latest caps.control_cap qs.control_queue d }
      else state_route
    | none => state_route
  | .unpackFail => state_route
  | .nonDict => state_route

/-! ## Client facade: `ServerBeastConnection` (`networking/connection.py`) -/

/-- Messages the client facade sends over the websocket; the embedding
records them in an outbox so theorems can talk about what was sent.
`actionAndStateRequest` is the pull request issued by
`request_world_state`. -/
inductive OutMsg where
  | ping
  | actionAndStateRequest
  | subscribeEntities (entities : List Int)
  | subscribeState (fps : Option ℚ)
  | setStreamRate (fps : Option ℚ) (interval_ms : Option ℚ)
  | actionMsg (action_name : String)
deriving DecidableEq, Repr

/-- The decoded per-client perception response: what the flatbuffers
accessor `PerceptionResponseFlatB` exposes to the facade (`get_ticks` and
`getEntity`).  The accessor itself is a collaborator outside this
subsystem; its results are embedded as plain data. -/
structure PerceptionResponse where
  ticks : Int
  entity : Option Nat
deriving DecidableEq, Repr

/-- Outcome of the client-side state decode chain
(`lz4.frame.decompress`, `msgpack.unpackb`, extraction of the client's own
payload, flatbuffers wrapping) on a dequeued state buffer:
* `ok` — every step succeeded and the payload was a byte string;
* `notBytesPayload` — decoding succeeded but
  `full_response.get(self.name)` was not `bytes`/`bytearray` (the guarded
  branch is skipped silently);
* `fail` — some step raised, caught by the surrounding `except`. -/
inductive StateDecodeOutcome where
  | ok (resp : PerceptionResponse)
  | notBytesPayload
  | fail (msg : String)
deriving DecidableEq, Repr

/-- State of a `ServerBeastConnection`: connectivity, the cached last
response, the cached tick counter, the bound entity, the streaming flag,
the online flag, the three receiver queues, and the outbox of messages
sent over the websocket. -/
structure ClientConn where
  has_websocket : Bool
  connected : Bool
  server_online_flag : Bool
  streaming_enabled : Bool
  last_state_response : Option PerceptionResponse
  world_ticks : Option Int
  entity : Option Nat
  queues : ReceiverQueues
  sent : List OutMsg
deriving DecidableEq, Repr

/-- Embedding of `ServerBeastConnection.request_world_state`: a no-op when
there is no websocket or the facade is not connected; otherwise send one
`action_and_state_request` frame. -/
def request_world_state (conn : ClientConn) : ClientConn :=
  if conn.has_websocket && conn.connected then
    { conn with sent := conn.sent ++ [.actionAndStateRequest] }
  else conn

/-- Embedding of `ServerBeastConnection.wait_for_next_world_state`.  The
decode chain on the dequeued buffer is a parameter `decode` (its outcome
depends only on the buffer's bytes).  Python control flow:
`state_queue.get_nowait()`; on `Empty`, issue a pull request when not
streaming and return the cached response; otherwise decode inside
`try`/`except` — on success replace the cached response, entity and ticks,
on any exception log and fall through — and return the (possibly updated)
cached response. -/
def wait_for_next_world_state (decode : Nat → StateDecodeOutcome) (conn : ClientConn) :
    ClientConn × Option PerceptionResponse :=
  match conn.queues.state_queue with
  | [] =>
    let conn' := if ¬conn.streaming_enabled then request_world_state conn else conn
    (conn', conn'.last_state_response)
  | comp_buf :: rest =>
    let conn0 := { conn with queues := { conn.queues with state_queue := rest } }
    match decode comp_buf with
    | .ok resp =>
      let conn1 :=
        { conn0 with
          last_state_response := some resp
          entity := match resp.entity with | some e => some e | none => conn0.entity
          world_ticks := some resp.ticks }
      (conn1, conn1.last_state_response)
    | .notBytesPayload => (conn0, conn0.last_state_response)
    | .fail _ => (conn0, conn0.last_state_response)

/-- Result of the `server_online` property: either a returned boolean or a
raised `AuthenticationError`. -/
inductive OnlineResult where
  | ret (b : Bool)
  | raiseAuth (msg : String)
deriving DecidableEq, Repr

/-- Embedding of the polling loop inside `ServerBeastConnection.server_online`:
repeatedly `control_queue.get(timeout=...)`; a drained-empty queue (or the
deadline) breaks the loop and the property returns `False`; a dict of type
`"error"` with `error_type == "authentication_error"` raises
`AuthenticationError`; a `"pong"` dict returns its `world_ready`; any
other dict is discarded and the loop continues.  The function returns the
remaining control queue, the result, and the new `_server_online` flag
(set to `world_ready` when a pong is seen). -/
def server_online_scan (flag : Bool) : List MPDict → List MPDict × OnlineResult × Bool
  | [] => ([], .ret false, flag)
  | msg :: rest =>
    if msg.type_field = some (.str "error") ∧ msg.error_type = some "authentication_error" then
      (rest, .raiseAuth (msg.message.getD "Authentication error occurred."), flag)
    else if msg.type_field = some (.str "pong") then
      (rest, .ret msg.world_ready, msg.world_ready)
    else
      server_online_scan flag rest

/-- Embedding of the `server_online` property of `ServerBeastConnection`:
when `_server_online` is already set or there is no websocket, return the
flag without touching the network; otherwise send a ping carrying a fresh
user token and poll the control queue as in `server_online_scan`. -/
def server_online (conn : ClientConn) : ClientConn × OnlineResult :=
  if ¬conn.server_online_flag ∧ conn.has_websocket then
    let conn1 := { conn with sent := conn.sent ++ [OutMsg.ping] }
    let scanned := server_online_scan conn1.server_online_flag conn1.queues.control_queue
    ({ conn1 with
        queues := { conn1.queues with control_queue := scanned.1 }
        server_online_flag := scanned.2.2 },
      scanned.2.1)
  else (conn, .ret conn.server_online_flag)

/-! ## Streaming server: `WebSocketGameServer` / `AuthenticatedWebSocketServer`
(`networking/websocket_server.py`)

The embedding covers, per connection, the state that the streaming claims
are about: whether a producer/sender pair is running
(`websocket in self._client_stream_tasks`) and the per-connection poll
interval (`self._client_stream_cfg[websocket]["dt"]`).  Intervals are
embedded into `ℚ`; the Python literal `0.001` is the rational `1/1000`.
Response message strings are kept only where a claim reads them; the
`error_type` discriminant is kept verbatim. -/

/-- Per-connection server-side streaming state. -/
structure ServerConnState where
  streaming : Bool
  stream_cfg_dt : Option ℚ
deriving DecidableEq, Repr

/-- Server-to-client structured responses produced by the embedded
message-processing fragment.  `unmodelled` marks the branches of
`process_message` (entity actions, subscriptions, state pulls) that are
outside the embedded fragment; those branches never touch the streaming
state. -/
inductive ServerResp where
  | pong (world_ready : Bool)
  | subscribeStateAckAlready
  | subscribeStateAck (dt : ℚ)
  | unsubscribeStateAck
  | setStreamRateAck (dt : Option ℚ)
  | errorResp (error_type : Option String) (message : String)
  | unmodelled (msg_type : String)
deriving DecidableEq, Repr

/-- An inbound client request as read by the server: the `"type"`
discriminant, the credential, and the optional fields the embedded
branches access.  Absent msgpack keys are embedded as `none`. -/
structure ClientMsg where
  type : String
  token : Token
  action_name : Option String := none
  fps : Option ℚ := none
  interval_ms : Option ℚ := none
deriving DecidableEq

/-- Embedding of `WebSocketGameServer._subscribe_state`: idempotent per
connection (a second call acknowledges `already_active` without touching
the configuration); otherwise compute the initial poll interval from the
request's `fps` (`max(0.001, 1.0 / max(1.0, fps))` when positive) or
`interval_ms` (`max(0.001, ms / 1000.0)` when non-negative), falling back
to the server default `max(0.001, 1.0 / max(1, int(self.fps)))`; record it
in the per-connection config, start the producer/sender pair, and
acknowledge with the recorded `dt`. -/
def subscribe_state_step (server_fps : Nat) (st : ServerConnState) (msg : ClientMsg) :
    ServerConnState × List ServerResp :=
  if st.streaming then (st, [.subscribeStateAckAlready])
  else
    let req_fps := msg.fps.bind (fun v => if 0 < v then some v else none)
    let req_dt_ms := msg.interval_ms.bind (fun v => if 0 ≤ v then some v else none)
    let poll_dt : ℚ :=
      match req_fps with
      | some f => max (1 / 1000) (1 / max 1 f)
      | none =>
        match req_dt_ms with
        | some ms => max (1 / 1000) (ms / 1000)
        | none => max (1 / 1000) (1 / (max 1 server_fps : ℚ))
    ({ streaming := true, stream_cfg_dt := some poll_dt }, [.subscribeStateAck poll_dt])

/-- Embedding of the `set_stream_rate` branch of
`WebSocketGameServer.process_message`: `new_dt = 1.0 / fps` when `fps` is
a positive number, else `interval_ms / 1000.0` when `interval_ms` is a
non-negative number; when a `new_dt` was computed, store
`max(0.001, new_dt)` in the per-connection config; acknowledge with the
config's current `dt` (which may be absent when nothing was ever set). -/
def set_stream_rate_step (st : ServerConnState) (msg : ClientMsg) :
    ServerConnState × List ServerResp :=
  let new_dt : Option ℚ :=
    match msg.fps.bind (fun f => if 0 < f then some (1 / f) else none) with
    | some d => some d
    | none => msg.interval_ms.bind (fun ms => if 0 ≤ ms then some (ms / 1000) else none)
  let st' : ServerConnState :=
    match new_dt with
    | some d => { st with stream_cfg_dt := some (max (1 / 1000) d) }
    | none => st
  (st', [.setStreamRateAck st'.stream_cfg_dt])

/-- Embedding of `WebSocketGameServer._unsubscribe_state`: cancel the
producer/sender pair and drop the outgoing queue (the per-connection `dt`
config entry is only popped by the disconnect cleanup, not here), then
acknowledge. -/
def unsubscribe_state_step (st : ServerConnState) : ServerConnState × List ServerResp :=
  ({ st with streaming := false }, [.unsubscribeStateAck])

/-- Embedding of `WebSocketGameServer.process_message` restricted to the
branches that read or write the streaming state, plus the `ping` branch
and the unknown-type fallback.  The `action_and_state_request`,
`ai_metadata`, `subscribe_entities` and `action` branches leave the
streaming state untouched and are marked `unmodelled`. -/
def process_message (server_fps : Nat) (st : ServerConnState) (msg : ClientMsg) :
    ServerConnState × List ServerResp :=
  if msg.type = "ping" then (st, [.pong true])
  else if msg.type = "subscribe_state" then subscribe_state_step server_fps st msg
  else if msg.type = "unsubscribe_state" then unsubscribe_state_step st
  else if msg.type = "set_stream_rate" then set_stream_rate_step st msg
  else if msg.type = "action_and_state_request" ∨ msg.type = "ai_metadata" ∨
          msg.type = "subscribe_entities" ∨ msg.type = "action" then
    (st, [.unmodelled msg.type])
  else (st, [.errorResp none ("Unknown type: " ++ msg.type)])

/-- Embedding of `AuthenticatedWebSocketServer.process_message` (via
`process_authenticated_message`): validate the credential (a failure is
reported as a structured `authentication_error` and the request is
dropped); derive the action name (`action_name` field, defaulting to the
message type); check `check_action_permission` against the caller's role
(a failure is reported as `authorization_error` and the request is
dropped); only then dispatch to the base `process_message`. -/
def process_authenticated_message (now : ℚ) (server_fps : Nat) (st : ServerConnState)
    (msg : ClientMsg) : ServerConnState × List ServerResp :=
  match validate_token now msg.token with
  | .error e => (st, [.errorResp (some "authentication_error") e])
  | .ok claims =>
    let action_name := msg.action_name.getD msg.type
    let lvl := get_user_permission_level claims
    if ¬check_action_permission action_name lvl then
      (st, [.errorResp (some "authorization_error")
              ("Insufficient permissions for action " ++ action_name)])
    else process_message server_fps st msg

/-! ## Streaming producer/sender pair (`WebSocketGameServer._subscribe_state`)

One producer iteration polls the world interface for the encoded,
compressed state blob and re-populates the single-slot outgoing queue only
when the blob's object identity (`id(compressed_data)`) differs from the
previously produced one.  A blob is embedded as its byte content (a `Nat`
standing for the byte string) together with its CPython object identity. -/

/-- An encoded, compressed state blob: its byte content and its object
identity (`id(...)`). -/
structure Blob where
  content : Nat
  obj_id : Nat
deriving DecidableEq, Repr

/-- Embedding of one iteration of the streaming `producer` loop body on
the blob returned by `get_perception_responses_async` (`none` embeds a
`None` result): when the blob is present and `id(compressed_data) !=
last_seen_id`, remember the new identity, drain the single-slot queue of
any stale unsent blob, and put the new one; otherwise leave the queue
untouched. -/
def producer_step (last_seen_id : Option Nat) (q : List Blob) (compressed_data : Option Blob) :
    Option Nat × List Blob :=
  match compressed_data with
  | none => (last_seen_id, q)
  | some b =>
    if some b.obj_id ≠ last_seen_id then
      (some b.obj_id, drain_queue q ++ [b])
    else (last_seen_id, q)

/-- Embedding of one iteration of the streaming `sender` loop: block on
the queue (`none` when it is empty and the sender stays blocked), else
take the blob and write it to the transport. -/
def sender_step (q : List Blob) : List Blob × Option Blob :=
  match q with
  | [] => ([], none)
  | b :: rest => (rest, some b)

/-! ## Shared helper lemmas -/

/-- Putting into a freshly drained (empty) queue always yields the
one-element queue, whatever the capacity: with `maxsize = 0` the queue is
unbounded, and otherwise an empty queue is below capacity. -/
theorem put_latest_nil {α : Type} (cap : Nat) (x : α) : put_latest cap [] x = [x] := by
  unfold put_latest
  rcases Nat.eq_zero_or_pos cap with h | h
  · simp [h]
  · simp [Nat.pos_iff_ne_zero.mp h, h]

/-- Fan-out preserves the number of registered consumers. -/
theorem publish_event_length (topic : String) (e : GameEvent) (consumers : List TopicReader) :
    (publish_event topic e consumers).length = consumers.length := by
  simp [publish_event]

/-- Boolean classifier for the `server_online` outcomes. -/
def raisesAuthError : OnlineResult → Bool
  | .ret _ => false
  | .raiseAuth _ => true

/-- Boolean classifier for a raised `AuthenticationError` in
`validate_token` (an `Except.error` result embeds a raise). -/
def validationRejects (r : Except String TokenPayload) : Bool :=
  match r with
  | .error _ => true
  | .ok _ => false

/-! ## Claim C1 — `process_events` and events emitted during the drain

The failing input: one callback registered for event type `0` that, when
it receives the event with payload `0`, emits one follow-up event with
payload `1` (and emits nothing otherwise); the queue initially holds the
single event `⟨0, 0⟩`. -/

/-- The callback of the C1 failing input. -/
def c1_callback : Callback := fun e => if e.data = 0 then [⟨0, 1⟩] else []

/-- The bus of the C1 failing input: `c1_callback` subscribed to event
type `0`, and one event `⟨0, 0⟩` queued by `emit`. -/
def c1_bus : BusState :=
  { listeners := fun t => if t = 0 then [c1_callback] else [], event_queue := [⟨0, 0⟩] }

/-- C1: a single `process_events()` call on the failing input dispatches
BOTH the originally queued event and the event emitted by the callback
during the drain, and leaves the queue empty — the `while` loop re-tests
the queue after each dispatch, so nothing is deferred to the next call.
This contradicts the claim (and the function's own docstring), which say
the callback-emitted event is queued for the next `process_events()`
call, i.e. that the call dispatches exactly `[⟨0, 0⟩]` and leaves
`⟨0, 1⟩` queued. -/
theorem C1_emitted_during_drain_dispatched_same_call :
    (process_events 5 c1_bus).2 = [⟨0, 0⟩, ⟨0, 1⟩] ∧
    (process_events 5 c1_bus).1.event_queue = [] ∧
    decide ((process_events 5 c1_bus).2 = [⟨0, 0⟩]) = false := by
  exact ⟨rfl, rfl, by decide⟩

/-! ## Claim C3 — unmapped actions fail closed -/

/-- C3: an action name with no entry in the `action_permissions` table
requires the highest role: `check_action_permission` returns `false` for
`GUEST` and `USER` (every level strictly below admin) and `true` for
`ADMIN`. -/
theorem C3_unmapped_action_fails_closed (action_name : String)
    (h : action_permissions.lookup action_name = none) :
    check_action_permission action_name .guest = false ∧
    check_action_permission action_name .user = false ∧
    check_action_permission action_name .admin = true := by
  unfold check_action_permission
  rw [h]
  exact ⟨rfl, rfl, rfl⟩

/-- C3 witness: `"set_stream_rate"` itself has no entry in the table, so a
guest or user is refused and an admin is allowed. -/
theorem C3_unmapped_action_fails_closed_witness :
    action_permissions.lookup "set_stream_rate" = none ∧
    check_action_permission "set_stream_rate" .guest = false ∧
    check_action_permission "set_stream_rate" .user = false ∧
    check_action_permission "set_stream_rate" .admin = true := by
  refine ⟨by decide, ?_⟩
  exact C3_unmapped_action_fails_closed "set_stream_rate" (by decide)

/-! ## Claim C4 — expired tokens always fail validation -/

/-- C4: a token whose `exp` claim lies strictly in the past fails
`validate_token` with a raised `AuthenticationError` (an `Except.error`
result), whether or not its signature verifies. -/
theorem C4_expired_token_rejected (p : TokenPayload) (sig : Bool) (now e : ℚ)
    (hexp : p.exp = some e) (hpast : e < now) :
    validationRejects (validate_token now { payload := p, sig_valid := sig }) = true := by
  cases sig
  · rfl
  · simp [validate_token, jwtDecode, hexp, hpast, validationRejects]

/-- C4 witness: a token expired at time 10 is rejected at time 20, both
with a verifying and with a non-verifying signature. -/
theorem C4_expired_token_rejected_witness :
    validationRejects
        (validate_token 20 { payload := ⟨"test_user", "user", some 10⟩, sig_valid := true })
      = true ∧
    validationRejects
        (validate_token 20 { payload := ⟨"test_user", "user", some 10⟩, sig_valid := false })
      = true :=
  ⟨C4_expired_token_rejected ⟨"test_user", "user", some 10⟩ true 20 10 rfl (by norm_num),
   C4_expired_token_rejected ⟨"test_user", "user", some 10⟩ false 20 10 rfl (by norm_num)⟩

/-! ## Claim C2 — the state queue is latest-wins -/

/-- C2: after the receive loop processes a frame that fails to decode as a
control message, the state queue holds exactly that frame; consequently,
when two such state payloads are processed in succession with no consumer
drain in between, the state queue holds exactly the second payload, and
whenever the two payloads differ the first can no longer be observed. -/
theorem C2_state_queue_holds_latest (caps : QueueCaps) (qs : ReceiverQueues) (f1 f2 : Frame)
    (h1 : f1.decoded = .unpackFail) (h2 : f2.decoded = .unpackFail) :
    (recv_step caps qs f1).state_queue = [f1.payload] ∧
    (recv_step caps (recv_step caps qs f1) f2).state_queue = [f2.payload] ∧
    (f1.payload ≠ f2.payload →
      f1.payload ∉ (recv_step caps (recv_step caps qs f1) f2).state_queue) := by
  refine ⟨?_, ?_, ?_⟩
  · simp [recv_step, h1, drain_queue, put_latest_nil]
  · simp [recv_step, h1, h2, drain_queue, put_latest_nil]
  · intro hne
    simp [recv_step, h1, h2, drain_queue, put_latest_nil, hne]

/-- C2 witness: with the client facade's queue capacities, two raw state
buffers `17` and `23` arriving back to back leave the state queue holding
exactly `[23]`, and `17` is gone. -/
theorem C2_state_queue_holds_latest_witness :
    (recv_step clientCaps ⟨[], [], []⟩ ⟨17, .unpackFail⟩).state_queue = [17] ∧
    (recv_step clientCaps (recv_step clientCaps ⟨[], [], []⟩ ⟨17, .unpackFail⟩)
        ⟨23, .unpackFail⟩).state_queue = [23] ∧
    (17 ≠ 23 →
      17 ∉ (recv_step clientCaps (recv_step clientCaps ⟨[], [], []⟩ ⟨17, .unpackFail⟩)
        ⟨23, .unpackFail⟩).state_queue) :=
  C2_state_queue_holds_latest clientCaps ⟨[], [], []⟩ ⟨17, .unpackFail⟩ ⟨23, .unpackFail⟩ rfl rfl

/-! ## Claim C10 — a dict with an absent or falsy `"type"` is a state payload -/

/-- C10: a frame that msgpack-decodes to a dict whose `"type"` key is
absent, or maps to a falsy value, is routed to the state queue as an
opaque state payload; the control and error queues are untouched. -/
theorem C10_falsy_type_routed_to_state (caps : QueueCaps) (qs : ReceiverQueues) (f : Frame)
    (d : MPDict) (hd : f.decoded = .dictVal d)
    (hfalsy : d.type_field = none ∨ ∃ v, d.type_field = some v ∧ pyTruthy v = false) :
    (recv_step caps qs f).state_queue = [f.payload] ∧
    (recv_step caps qs f).control_queue = qs.control_queue ∧
    (recv_step caps qs f).error_queue = qs.error_queue := by
  rcases hfalsy with hnone | ⟨v, hv, hfv⟩
  · simp [recv_step, hd, hnone, drain_queue, put_latest_nil]
  · simp [recv_step, hd, hv, hfv, drain_queue, put_latest_nil]

/-- C10 witness: a frame decoding to a dict whose `"type"` is the empty
string (falsy) lands on the state queue and leaves the control and error
queues alone. -/
theorem C10_falsy_type_routed_to_state_witness :
    (recv_step clientCaps ⟨[], [], []⟩
        ⟨41, .dictVal { type_field := some (.str "") }⟩).state_queue = [41] ∧
    (recv_step clientCaps ⟨[], [], []⟩
        ⟨41, .dictVal { type_field := some (.str "") }⟩).control_queue = [] ∧
    (recv_step clientCaps ⟨[], [], []⟩
        ⟨41, .dictVal { type_field := some (.str "") }⟩).error_queue = [] :=
  C10_falsy_type_routed_to_state clientCaps ⟨[], [], []⟩
    ⟨41, .dictVal { type_field := some (.str "") }⟩ { type_field := some (.str "") }
    rfl (Or.inr ⟨.str "", rfl, rfl⟩)

/-! ## Claim C6 — authentication error during the `server_online` wait

The failing input: the connection is fresh (`_server_online` unset, all
queues empty) and, while `server_online` is waiting for its pong, the
server's reply is the structured error frame below.  The receiver routes
it to the error queue — but `server_online` polls only the control queue,
so the `AuthenticationError` branch inside it can never see the message:
the property times out and returns `False` instead of raising. -/

/-- The structured authentication-error reply of the C6 failing input. -/
def c6_auth_error_dict : MPDict :=
  { type_field := some (.str "error"), error_type := some "authentication_error",
    message := some "Invalid token: Signature verification failed" }

/-- The raw frame carrying `c6_auth_error_dict`. -/
def c6_frame : Frame := { payload := 99, decoded := .dictVal c6_auth_error_dict }

/-- A fresh client connection: receiver queues empty, `_server_online`
unset. -/
def c6_conn0 : ClientConn :=
  { has_websocket := true, connected := true, server_online_flag := false,
    streaming_enabled := false, last_state_response := none, world_ticks := none,
    entity := none, queues := ⟨[], [], []⟩, sent := [] }

/-- The connection after the receive loop processes the error frame. -/
def c6_conn1 : ClientConn :=
  { c6_conn0 with queues := recv_step clientCaps c6_conn0.queues c6_frame }

/-- C6: the authentication-error message does arrive on the receiver's
error queue, but the control queue stays empty, so `server_online`
returns `False` (after its timeout) and never raises the
`AuthenticationError` that its own error-checking branch — and the claim —
call for. -/
theorem C6_auth_error_never_raised :
    c6_conn1.queues.error_queue = [c6_auth_error_dict] ∧
    c6_conn1.queues.control_queue = [] ∧
    (server_online c6_conn1).2 = .ret false ∧
    raisesAuthError (server_online c6_conn1).2 = false := by
  refine ⟨rfl, rfl, ?_, ?_⟩ <;> rfl

/-! ## Claim C7 — producer dedup of consecutive identical blobs

The streaming producer's dedup compares `id(compressed_data)` — CPython
object identity — against the previously produced blob, and
`get_perception_responses` builds a fresh `lz4.frame.compress(...)` object
on every poll.  Two consecutive polls with no state change therefore yield
blobs with identical bytes but distinct identities. -/

/-- First poll's blob of the C7 counterexample (content `5`). -/
def c7_blob1 : Blob := ⟨5, 1⟩

/-- Second poll's blob: identical content `5`, fresh object identity. -/
def c7_blob2 : Blob := ⟨5, 2⟩

/-- C7 counterexample: after the first blob has been produced (identity
`1` remembered) and sent (queue empty), a second blob with identical
content but a fresh identity re-populates the single-slot queue, and the
sender transmits it — a duplicate frame, contradicting the claim that the
queue is not re-populated for the second of two identical blobs. -/
theorem C7_content_equal_blob_repopulates_queue :
    c7_blob1.content = c7_blob2.content ∧
    producer_step none [] (some c7_blob1) = (some 1, [c7_blob1]) ∧
    sender_step [c7_blob1] = ([], some c7_blob1) ∧
    producer_step (some 1) [] (some c7_blob2) = (some 2, [c7_blob2]) ∧
    sender_step [c7_blob2] = ([], some c7_blob2) ∧
    decide (producer_step (some 1) [] (some c7_blob2) = (some 1, [])) = false := by
  exact ⟨rfl, rfl, rfl, rfl, rfl, by decide⟩

/-- C7 amended: the dedup is by object identity, not content — when a poll
returns the very same blob object as the previous one
(`id(compressed_data) == last_seen_id`), the producer leaves the
single-slot queue untouched, so the sender transmits nothing new; a fresh
object with identical bytes is re-enqueued. -/
theorem C7_identity_equal_blob_not_requeued (last_seen_id : Option Nat) (q : List Blob)
    (b : Blob) (h : last_seen_id = some b.obj_id) :
    producer_step last_seen_id q (some b) = (last_seen_id, q) := by
  simp [producer_step, h]

/-- C7 amended witness: re-polling the same blob object (identity `3`)
leaves an empty outgoing queue empty. -/
theorem C7_identity_equal_blob_not_requeued_witness :
    producer_step (some 3) [] (some ⟨5, 3⟩) = (some 3, []) :=
  C7_identity_equal_blob_not_requeued (some 3) [] ⟨5, 3⟩ rfl

/-! ## Claim C5 — `set_stream_rate` and the effective streaming interval

The client facade attaches `MockJWTProvider.get_user_token()` — a
credential with role `"user"` — to `subscribe_state` and
`set_stream_rate` requests alike, and the server started by the world
interface is the `AuthenticatedWebSocketServer`.  `"subscribe_state"` is
mapped to `USER` in the permission table, but `"set_stream_rate"` has no
entry, so it fail-closes to `ADMIN`. -/

/-- The `subscribe_state` request sent by
`ServerBeastConnection.enable_state_stream(fps=20)`. -/
def c5_sub_msg (tok : Token) : ClientMsg :=
  { type := "subscribe_state", token := tok, fps := some 20 }

/-- The `set_stream_rate` request sent by
`ServerBeastConnection.set_stream_rate(fps=f)`. -/
def c5_rate_msg (tok : Token) (f : ℚ) : ClientMsg :=
  { type := "set_stream_rate", token := tok, fps := some f }

/-- Validation of the facade's user credential at time 0 succeeds. -/
theorem c5_user_token_valid :
    validate_token 0 (get_user_token 0) = .ok ⟨"test_user", "user", some 86400⟩ := by
  norm_num [validate_token, jwtDecode, get_user_token, create_mock_token]

/-- Processing `subscribe_state(fps=20)` under the user credential
authorizes (the action is mapped to `USER`) and sets the interval to
`1/20`. -/
theorem c5_sub_step_user :
    process_authenticated_message 0 30 ⟨false, none⟩ (c5_sub_msg (get_user_token 0)) =
      (⟨true, some (1 / 20)⟩, [.subscribeStateAck (1 / 20)]) := by
  simp only [process_authenticated_message, c5_sub_msg]
  rw [c5_user_token_valid]
  norm_num [get_user_permission_level, check_action_permission, action_permissions,
    level_hierarchy, process_message, subscribe_state_step, max_def]
  rw [if_neg (by decide), if_neg (by decide)]

/-- The admin credential under which the amended claim holds
(`MockJWTProvider.get_admin_token()` issued at time 0). -/
def c5_admin_token : Token := create_mock_token 0 "admin_user" "admin" 24

/-- Validation of the admin credential at time 0 succeeds. -/
theorem c5_admin_token_valid :
    validate_token 0 c5_admin_token = .ok ⟨"admin_user", "admin", some 86400⟩ := by
  norm_num [validate_token, jwtDecode, c5_admin_token, create_mock_token]

/-- A `set_stream_rate` request under the user credential is rejected
with an `authorization_error` and leaves the connection state
untouched — `"set_stream_rate"` is unmapped in the permission table and
fail-closes to admin. -/
theorem c5_rate_step_user (st : ServerConnState) (f : ℚ) :
    process_authenticated_message 0 30 st (c5_rate_msg (get_user_token 0) f) =
      (st, [.errorResp (some "authorization_error")
              "Insufficient permissions for action set_stream_rate"]) := by
  simp only [process_authenticated_message, c5_rate_msg]
  rw [c5_user_token_valid]
  norm_num [get_user_permission_level, check_action_permission, action_permissions,
    level_hierarchy]
  rw [if_pos (by decide)]
  simp

/-- A `set_stream_rate` request with a positive fps under the admin
credential updates the per-connection interval to `max(0.001, 1/fps)` and
acknowledges with that interval. -/
theorem c5_admin_rate_step (st : ServerConnState) (f : ℚ) (hf : 0 < f) :
    process_authenticated_message 0 30 st (c5_rate_msg c5_admin_token f) =
      ({ st with stream_cfg_dt := some (max (1 / 1000) (1 / f)) },
        [.setStreamRateAck (some (max (1 / 1000) (1 / f)))]) := by
  simp only [process_authenticated_message, c5_rate_msg]
  rw [c5_admin_token_valid]
  simp only [Option.getD]
  rw [if_neg (by decide)]
  simp only [process_message]
  rw [if_neg (by decide), if_neg (by decide), if_neg (by decide), if_pos (by decide)]
  simp [set_stream_rate_step, hf]

/-- Processing `subscribe_state(fps=20)` under the admin credential sets
the interval to `1/20`. -/
theorem c5_sub_step_admin :
    process_authenticated_message 0 30 ⟨false, none⟩ (c5_sub_msg c5_admin_token) =
      (⟨true, some (1 / 20)⟩, [.subscribeStateAck (1 / 20)]) := by
  simp only [process_authenticated_message, c5_sub_msg]
  rw [c5_admin_token_valid]
  norm_num [get_user_permission_level, check_action_permission, action_permissions,
    level_hierarchy, process_message, subscribe_state_step, max_def]
  rw [if_neg (by decide), if_neg (by decide)]

/-- State and responses after step 1 of the scenario:
`subscribe_state(fps=20)` processed on a fresh connection. -/
def c5_step1 (tok : Token) : ServerConnState × List ServerResp :=
  process_authenticated_message 0 30 ⟨false, none⟩ (c5_sub_msg tok)

/-- State and responses after step 2: `set_stream_rate(fps=f1)`. -/
def c5_step2 (tok : Token) (f1 : ℚ) : ServerConnState × List ServerResp :=
  process_authenticated_message 0 30 (c5_step1 tok).1 (c5_rate_msg tok f1)

/-- State and responses after step 3: `set_stream_rate(fps=f2)`. -/
def c5_step3 (tok : Token) (f1 f2 : ℚ) : ServerConnState × List ServerResp :=
  process_authenticated_message 0 30 (c5_step2 tok f1).1 (c5_rate_msg tok f2)

/-- C5 counterexample: with the client facade's user credential,
`subscribe_state(fps=20)` sets the interval to `1/20`, but both
subsequent `set_stream_rate` requests (fps 40 and 10) are refused with an
`authorization_error`, so the effective interval stays `1/20` and never
becomes `1/40` — contradicting the claim that it becomes `1/f1`. -/
theorem C5_user_rate_change_rejected :
    c5_step1 (get_user_token 0) =
      (⟨true, some (1 / 20)⟩, [.subscribeStateAck (1 / 20)]) ∧
    c5_step2 (get_user_token 0) 40 =
      (⟨true, some (1 / 20)⟩,
        [.errorResp (some "authorization_error")
            "Insufficient permissions for action set_stream_rate"]) ∧
    c5_step3 (get_user_token 0) 40 10 =
      (⟨true, some (1 / 20)⟩,
        [.errorResp (some "authorization_error")
            "Insufficient permissions for action set_stream_rate"]) ∧
    (c5_step2 (get_user_token 0) 40).1.stream_cfg_dt ≠ some (1 / 40) := by
  have hs : c5_step1 (get_user_token 0) =
      (⟨true, some (1 / 20)⟩, [.subscribeStateAck (1 / 20)]) := c5_sub_step_user
  have h2 : c5_step2 (get_user_token 0) 40 =
      (⟨true, some (1 / 20)⟩,
        [.errorResp (some "authorization_error")
            "Insufficient permissions for action set_stream_rate"]) := by
    unfold c5_step2
    rw [hs]
    exact c5_rate_step_user ⟨true, some (1 / 20)⟩ 40
  have h3 : c5_step3 (get_user_token 0) 40 10 =
      (⟨true, some (1 / 20)⟩,
        [.errorResp (some "authorization_error")
            "Insufficient permissions for action set_stream_rate"]) := by
    unfold c5_step3
    rw [h2]
    exact c5_rate_step_user ⟨true, some (1 / 20)⟩ 10
  refine ⟨hs, h2, h3, ?_⟩
  rw [h2]
  norm_num

/-- C5 amended: with an admin credential, the effective per-connection
interval becomes `1/20` after `subscribe_state(fps=20)`, then
`max(0.001, 1/f1)` and `max(0.001, 1/f2)` after the two `set_stream_rate`
requests with positive fps values, and each acknowledgement's `dt`
reports the new interval. -/
theorem C5_admin_rate_changes_take_effect (f1 f2 : ℚ) (h1 : 0 < f1) (h2 : 0 < f2) :
    c5_step1 c5_admin_token =
      (⟨true, some (1 / 20)⟩, [.subscribeStateAck (1 / 20)]) ∧
    c5_step2 c5_admin_token f1 =
      (⟨true, some (max (1 / 1000) (1 / f1))⟩,
        [.setStreamRateAck (some (max (1 / 1000) (1 / f1)))]) ∧
    c5_step3 c5_admin_token f1 f2 =
      (⟨true, some (max (1 / 1000) (1 / f2))⟩,
        [.setStreamRateAck (some (max (1 / 1000) (1 / f2)))]) := by
  have hs : c5_step1 c5_admin_token =
      (⟨true, some (1 / 20)⟩, [.subscribeStateAck (1 / 20)]) := c5_sub_step_admin
  have ha1 : c5_step2 c5_admin_token f1 =
      (⟨true, some (max (1 / 1000) (1 / f1))⟩,
        [.setStreamRateAck (some (max (1 / 1000) (1 / f1)))]) := by
    unfold c5_step2
    rw [hs]
    exact c5_admin_rate_step ⟨true, some (1 / 20)⟩ f1 h1
  have ha2 : c5_step3 c5_admin_token f1 f2 =
      (⟨true, some (max (1 / 1000) (1 / f2))⟩,
        [.setStreamRateAck (some (max (1 / 1000) (1 / f2)))]) := by
    unfold c5_step3
    rw [ha1]
    exact c5_admin_rate_step ⟨true, some (max (1 / 1000) (1 / f1))⟩ f2 h2
  exact ⟨hs, ha1, ha2⟩

/-- C5 amended witness: admin-credentialled rate changes to fps 40 and
then fps 10 take effect, each acknowledged with the new interval. -/
theorem C5_admin_rate_changes_take_effect_witness :
    c5_step1 c5_admin_token =
      (⟨true, some (1 / 20)⟩, [.subscribeStateAck (1 / 20)]) ∧
    c5_step2 c5_admin_token 40 =
      (⟨true, some (max (1 / 1000) (1 / 40))⟩,
        [.setStreamRateAck (some (max (1 / 1000) (1 / 40)))]) ∧
    c5_step3 c5_admin_token 40 10 =
      (⟨true, some (max (1 / 1000) (1 / 10))⟩,
        [.setStreamRateAck (some (max (1 / 1000) (1 / 10)))]) :=
  C5_admin_rate_changes_take_effect 40 10 (by norm_num) (by norm_num)


/-! ## Claim C8 — topic-filtered fan-out on the broker -/

/-- C8: for the consumer at any position of the broker's registration
list, `publish_event` leaves its buffer unchanged when the consumer's
topic set does not contain the published topic, appends the event when it
does, and appends the event unconditionally when the consumer subscribed
with `topics=None`. -/
theorem C8_topic_filtered_fanout (consumers : List TopicReader) (topic : String)
    (e : GameEvent) (i : Nat) (hi : i < consumers.length)
    (hip : i < (publish_event topic e consumers).length) :
    (∀ ts, consumers[i].topics = some ts → topic ∉ ts →
      (publish_event topic e consumers)[i].buffer = consumers[i].buffer) ∧
    (∀ ts, consumers[i].topics = some ts → topic ∈ ts →
      (publish_event topic e consumers)[i].buffer = consumers[i].buffer ++ [e]) ∧
    (consumers[i].topics = none →
      (publish_event topic e consumers)[i].buffer = consumers[i].buffer ++ [e]) := by
  have hmap : (publish_event topic e consumers)[i] =
      (if topic_matches consumers[i] topic
       then consumers[i].enqueue e else consumers[i]) := by
    simp [publish_event]
  refine ⟨?_, ?_, ?_⟩
  · intro ts hts hnot
    rw [hmap]
    simp [topic_matches, hts, hnot]
  · intro ts hts hmem
    rw [hmap]
    simp [topic_matches, hts, hmem, TopicReader.enqueue]
  · intro hnone
    rw [hmap]
    simp [topic_matches, hnone, TopicReader.enqueue]

/-- C8 witness: on a broker with one consumer subscribed to `{"A"}` and
one subscribed to all topics, publishing to `"B"` leaves the first
consumer's buffer empty while the all-topics consumer receives the event,
and publishing to `"A"` reaches the first consumer. -/
theorem C8_topic_filtered_fanout_witness :
    ((publish_event "B" ⟨1, 2⟩ [⟨some ["A"], []⟩, ⟨none, []⟩])[0].buffer = [] ∧
      (publish_event "A" ⟨1, 2⟩ [⟨some ["A"], []⟩, ⟨none, []⟩])[0].buffer = [⟨1, 2⟩]) ∧
    (publish_event "B" ⟨1, 2⟩ [⟨some ["A"], []⟩, ⟨none, []⟩])[1].buffer = [⟨1, 2⟩] := by
  refine ⟨⟨?_, ?_⟩, ?_⟩
  · exact (C8_topic_filtered_fanout [⟨some ["A"], []⟩, ⟨none, []⟩] "B" ⟨1, 2⟩ 0
      (by decide) (by decide)).1 ["A"] rfl (by decide)
  · exact (C8_topic_filtered_fanout [⟨some ["A"], []⟩, ⟨none, []⟩] "A" ⟨1, 2⟩ 0
      (by decide) (by decide)).2.1 ["A"] rfl (by decide)
  · exact (C8_topic_filtered_fanout [⟨some ["A"], []⟩, ⟨none, []⟩] "B" ⟨1, 2⟩ 1
      (by decide) (by decide)).2.2 rfl


/-! ## Claim C9 — `wait_for_next_world_state` never raises -/

/-- C9: `wait_for_next_world_state` is total in the embedding (every
`try`/`except` of the source is an explicit match), and degrades instead
of raising: on an empty state queue it returns the previously cached
response, issuing a new pull request beforehand exactly when streaming is
not enabled (given a usable connection); and when the decode chain fails
on the dequeued payload it returns the previously cached response, leaves
the cached response unchanged, and sends nothing. -/
theorem C9_wait_for_next_state_degrades (decode : Nat → StateDecodeOutcome)
    (conn : ClientConn) :
    (conn.queues.state_queue = [] →
      (wait_for_next_world_state decode conn).2 = conn.last_state_response ∧
      (conn.has_websocket = true → conn.connected = true →
        ((wait_for_next_world_state decode conn).1.sent =
            conn.sent ++ [OutMsg.actionAndStateRequest] ↔
          conn.streaming_enabled = false))) ∧
    (∀ buf rest m, conn.queues.state_queue = buf :: rest → decode buf = .fail m →
      (wait_for_next_world_state decode conn).2 = conn.last_state_response ∧
      (wait_for_next_world_state decode conn).1.last_state_response =
        conn.last_state_response ∧
      (wait_for_next_world_state decode conn).1.sent = conn.sent) := by
  have hlen : ∀ l : List OutMsg, ¬(l ++ [OutMsg.actionAndStateRequest] = l) := by
    intro l heq
    have := congrArg List.length heq
    simp at this
  constructor
  · intro h
    constructor
    · cases hs : conn.streaming_enabled <;>
        cases hw : conn.has_websocket <;>
        cases hc : conn.connected <;>
        simp [wait_for_next_world_state, h, hs, hw, hc, request_world_state]
    · intro hw hc
      cases hs : conn.streaming_enabled
      · simp [wait_for_next_world_state, h, hs, request_world_state, hw, hc]
      · simp [wait_for_next_world_state, h, hs, request_world_state, hw, hc, hlen]
  · intro buf rest m h hfail
    simp [wait_for_next_world_state, h, hfail]

/-- A connected, non-streaming client with a cached response and an empty
state queue. -/
def c9_conn : ClientConn :=
  { has_websocket := true, connected := true, server_online_flag := false,
    streaming_enabled := false, last_state_response := some ⟨7, none⟩,
    world_ticks := some 7, entity := none, queues := ⟨[], [], []⟩, sent := [] }

/-- The same client with one queued state buffer (`5`). -/
def c9_conn_fail : ClientConn := { c9_conn with queues := ⟨[5], [], []⟩ }

/-- A decode chain that fails on every buffer (a malformed payload). -/
def c9_decode : Nat → StateDecodeOutcome := fun _ => .fail "malformed state buffer"

/-- C9 witness: on the empty queue the cached response is returned and a
pull request goes out (the client is not streaming); on a malformed
queued payload the cached response is returned unchanged and nothing is
sent. -/
theorem C9_wait_for_next_state_degrades_witness :
    ((wait_for_next_world_state c9_decode c9_conn).2 = some ⟨7, none⟩ ∧
      ((wait_for_next_world_state c9_decode c9_conn).1.sent =
          [OutMsg.actionAndStateRequest] ↔ (false : Bool) = false)) ∧
    ((wait_for_next_world_state c9_decode c9_conn_fail).2 = some ⟨7, none⟩ ∧
      (wait_for_next_world_state c9_decode c9_conn_fail).1.last_state_response =
        some ⟨7, none⟩ ∧
      (wait_for_next_world_state c9_decode c9_conn_fail).1.sent = []) :=
  ⟨⟨((C9_wait_for_next_state_degrades c9_decode c9_conn).1 rfl).1,
    ((C9_wait_for_next_state_degrades c9_decode c9_conn).1 rfl).2 rfl rfl⟩,
   (C9_wait_for_next_state_degrades c9_decode c9_conn_fail).2 5 []
     "malformed state buffer" rfl rfl⟩

end Aetherion
